import Mathlib

/-!
Shallow embedding of `src/server.go` (package `server` of berryons/server)
and verification of the frozen claims about it.

The embedding models the observable control flow of the wrapper itself.
External collaborators are abstracted by identity: a `runtime.ServeMux`
value, a `context.Context` value and a `[]grpc.DialOption` value are each
modelled by a token type that distinguishes caller-supplied values from
the default instances the wrapper allocates. A `log.Fatal` or `log.Fatalf`
call terminates the process; it is modelled as a fatal outcome after which
no further source line runs.
-/

namespace Server

/-- Model of the package-level variable `supportedNetworks` (server.go line 20). -/
def supportedNetworks : List String := ["unix", "tcp"]

/-- Model of Go `strings.ToLower`, restricted to ASCII (all network names in
this repository are ASCII). -/
def goToLower (s : String) : String := ⟨s.data.map Char.toLower⟩

/-- Model of Go `strings.EqualFold`, restricted to ASCII case folding. -/
def goEqualFold (a b : String) : Bool := goToLower a == goToLower b

/-- Model of `fmt.Sprintf("%s:%d", address, port)` as used at server.go
lines 31, 123 and 160; `toString` on `Int` renders exactly as Go `%d`. -/
def fullAddress (address : String) (port : Int) : String :=
  address ++ ":" ++ toString port

/-- Fatal errors that `checkNetwork` (server.go lines 65-73) can report.
`configNotSet` is the `log.Fatal("Server network or address environment
variable not set.")` path; `unsupportedNetwork` is the
`log.Fatalf("This network is not supported: %s", network)` path. -/
inductive FatalError where
  | configNotSet
  | unsupportedNetwork (network : String)
deriving DecidableEq, Repr

/-- Model of `checkNetwork` (server.go lines 65-73). It returns the fatal
error it reports, or `none` when validation passes. Go `slices.Contains`
is list membership. Note the `address` parameter: `New` passes the composed
`fullAddress`, not the bare address field. -/
def checkNetwork (network address : String) : Option FatalError :=
  if network.length = 0 ∨ address.length = 0 then
    some FatalError.configNotSet
  else if network ∉ supportedNetworks then
    some (FatalError.unsupportedNetwork network)
  else
    none

/-- Identity of a `runtime.ServeMux` value. Distinct tokens model distinct
mux instances; `runtime.NewServeMux()` allocates a fresh one. -/
structure Mux where
  id : Nat
deriving DecidableEq, Repr

/-- Identity of a `context.Context` value; `background` is the default
instance `context.Background()` (server.go line 145). -/
inductive Ctx where
  | background
  | caller (id : Nat)
deriving DecidableEq, Repr

/-- Identity of a `[]grpc.DialOption` value; `insecureDefault` is the default
`[]grpc.DialOption{grpc.WithTransportCredentials(insecure.NewCredentials())}`
built at server.go lines 153-157. -/
inductive DialOpts where
  | insecureDefault
  | caller (id : Nat)
deriving DecidableEq, Repr

/-- Model of a `HttpProxyServerHandler` (server.go line 23): a tag `id` to
track identity and order in traces, and `run` giving the error the handler
returns (`some msg`) or success (`none`) on given arguments. -/
structure Handler where
  id : Nat
  run : Ctx → Mux → String → DialOpts → Option String

/-- Record of one handler invocation inside the loop at server.go
lines 159-163: which handler ran and the arguments it received. -/
structure HandlerCall where
  handlerId : Nat
  ctx : Ctx
  mux : Mux
  endpoint : String
  opts : DialOpts
deriving DecidableEq, Repr

/-- Model of the `GrpcServer` struct fields the claims observe (server.go
lines 80-89). The `net.Listener` and the `grpc.Server` values are opaque;
`serverPresent` records whether the `Server` field is non-nil (it always is
for a handle built by `New`). A nil `httpProxyMux` pointer is `none`. -/
structure GrpcServer where
  serverPresent : Bool
  network : String
  address : String
  port : Int
  httpProxyMux : Option Mux
  httpProxyPort : Int
deriving DecidableEq, Repr

/-- Outcome of `New` (server.go lines 25-63): either a fatal error reported by
`checkNetwork` before `net.Listen` is reached, or the `net.Listen` invocation
with its two arguments (server.go line 37) together with the handle returned
when the bind succeeds. The interceptor arguments (lines 28-29, 42-49) only
configure the opaque `grpc.Server` and are observed by no claim, so they are
elided here. -/
inductive NewOutcome where
  | fatalBeforeListen (e : FatalError)
  | listens (listenNetwork listenAddress : String) (handle : GrpcServer)
deriving DecidableEq, Repr

/-- Model of `New` (server.go lines 25-63): build `fullAddress`, run
`checkNetwork` on the network and the full address, then call
`net.Listen(strings.ToLower(network), fullAddress)` and return the handle
with `httpProxyMux: nil` and `httpProxyPort: -1` (lines 60-61). -/
def new (network address : String) (port : Int) : NewOutcome :=
  match checkNetwork network (fullAddress address port) with
  | some e => NewOutcome.fatalBeforeListen e
  | none =>
      NewOutcome.listens (goToLower network) (fullAddress address port)
        { serverPresent := true,
          network := network,
          address := address,
          port := port,
          httpProxyMux := none,
          httpProxyPort := -1 }

/-- Observable actions of `Run` (server.go lines 91-115), before the blocking
`Serve` call returns. -/
structure RunTrace where
  fatalNilServer : Bool
  signalHandlerInstalled : Bool
  gatewayTaskStarted : Bool
  primaryServeEntered : Bool
deriving DecidableEq, Repr

/-- Model of `Run` (server.go lines 91-115): fatal if the `Server` field is
nil, otherwise install the signal handler, start the gateway goroutine
exactly when `pSelf.httpProxyMux != nil && pSelf.port != pSelf.httpProxyPort
&& pSelf.httpProxyPort > 0` (line 105), and enter `Server.Serve`. -/
def run (s : GrpcServer) : RunTrace :=
  if !s.serverPresent then
    { fatalNilServer := true,
      signalHandlerInstalled := false,
      gatewayTaskStarted := false,
      primaryServeEntered := false }
  else
    { fatalNilServer := false,
      signalHandlerInstalled := true,
      gatewayTaskStarted :=
        s.httpProxyMux.isSome && (s.port != s.httpProxyPort)
          && decide (s.httpProxyPort > 0),
      primaryServeEntered := true }

/-- Observable shutdown actions of `postDestroy`, in execution order. -/
inductive ShutdownEvent where
  | closeListener
  | removePath (path : String)
  | exitZero
deriving DecidableEq, Repr

/-- Model of `postDestroy` (server.go lines 166-185): after the first signal,
close the listener; then, when `strings.EqualFold("unix", pSelf.network)`,
call `os.Remove(pSelf.address)`; then `os.Exit(0)`. A failure of the close or
of the removal is `log.Fatal`; the trace lists the attempted actions in
program order. -/
def postDestroy (s : GrpcServer) : List ShutdownEvent :=
  [ShutdownEvent.closeListener]
    ++ (if goEqualFold "unix" s.network then
          [ShutdownEvent.removePath s.address]
        else [])
    ++ [ShutdownEvent.exitZero]

/-- Result of `RegisterHttpProxyServer`: the handle state afterwards, the
handler invocations performed, and whether a `log.Fatal` path ran. -/
structure RegisterResult where
  state : GrpcServer
  calls : List HandlerCall
  fatal : Bool
deriving Repr

/-- Model of the handler loop at server.go lines 159-163: invoke the handlers
in slice order, each with the same arguments; a returned error is
`log.Fatalf`, which terminates the process, so later handlers do not run. -/
def runHandlers (hs : List Handler) (c : Ctx) (m : Mux) (e : String)
    (o : DialOpts) : List HandlerCall × Bool :=
  match hs with
  | [] => ([], false)
  | h :: t =>
    match h.run c m e o with
    | some _ => ([⟨h.id, c, m, e, o⟩], true)
    | none =>
        let r := runHandlers t c m e o
        (⟨h.id, c, m, e, o⟩ :: r.1, r.2)

/-- Model of `RegisterHttpProxyServer` (server.go lines 130-164). `handlers`
is the Go slice (a nil slice and an empty slice are both the empty list, and
both take the `log.Fatal` branch at line 131 before any field is assigned).
`freshMux` stands for the instance `runtime.NewServeMux()` would allocate at
line 149. Faithful to line 151, the handle stores the original `mux`
argument, while the loop at lines 159-163 uses `checkedMux`; the endpoint
passed to every handler is `fmt.Sprintf("%s:%d", pSelf.address, pSelf.port)`
(line 160). -/
def registerHttpProxyServer (s : GrpcServer) (handlers : List Handler)
    (ctx : Option Ctx) (mux : Option Mux) (opts : Option DialOpts)
    (httpProxyPort : Int) (freshMux : Mux) : RegisterResult :=
  if handlers.isEmpty then
    { state := s, calls := [], fatal := true }
  else
    let newPort := if httpProxyPort = -1 then s.port + 1 else httpProxyPort
    let checkedCtx := ctx.getD Ctx.background
    let checkedMux := mux.getD freshMux
    let checkedOpts := opts.getD DialOpts.insecureDefault
    let endpoint := fullAddress s.address s.port
    let r := runHandlers handlers checkedCtx checkedMux endpoint checkedOpts
    { state := { s with httpProxyPort := newPort, httpProxyMux := mux },
      calls := r.1,
      fatal := r.2 }

/-- Handle returned by `New("tcp", "127.0.0.1", 50051, nil, nil)`, used as a
concrete sample state. -/
def tcpHandle : GrpcServer :=
  { serverPresent := true,
    network := "tcp",
    address := "127.0.0.1",
    port := 50051,
    httpProxyMux := none,
    httpProxyPort := -1 }

/-- Handle returned by `New("unix", "/tmp/test.sock", 50051, nil, nil)`, used
as a concrete sample state. -/
def unixHandle : GrpcServer :=
  { serverPresent := true,
    network := "unix",
    address := "/tmp/test.sock",
    port := 50051,
    httpProxyMux := none,
    httpProxyPort := -1 }

/-- Sample handler that always succeeds. -/
def okHandler (n : Nat) : Handler := ⟨n, fun _ _ _ _ => none⟩

/-- Sample handler that always fails. -/
def errHandler (n : Nat) : Handler := ⟨n, fun _ _ _ _ => some "boom"⟩

end Server

namespace Server

/-- Claim C1 (code bug, evaluated at the failing input): with network `unix`,
address `/tmp/test.sock`, port 50051, `New` binds the listener at the
filesystem path `/tmp/test.sock:50051`, but shutdown closes the listener and
then removes `/tmp/test.sock`, a path different from the one the listener was
bound to; so the wrapper does not remove the socket path it bound. -/
theorem C1_shutdown_removes_path_not_bound :
    new "unix" "/tmp/test.sock" 50051 =
      NewOutcome.listens "unix" "/tmp/test.sock:50051" unixHandle ∧
    postDestroy unixHandle =
      [ShutdownEvent.closeListener, ShutdownEvent.removePath "/tmp/test.sock",
        ShutdownEvent.exitZero] ∧
    "/tmp/test.sock" ≠ "/tmp/test.sock:50051" := by
  refine ⟨by decide, by decide, by decide⟩

/-- Claim C2 (code bug, evaluated at the failing input): registering one
always-succeeding handler with a nil mux argument invokes the handler against
the fresh default mux `Mux.mk 7`, yet the handle afterwards stores `none`
(line 151 assigns the original `mux` argument, not `checkedMux`), so the
stored multiplexer is not the one the handlers were registered against. -/
theorem C2_nil_mux_not_stored :
    (registerHttpProxyServer tcpHandle [okHandler 0] none none none 9000
        (Mux.mk 7)).calls =
      [⟨0, Ctx.background, Mux.mk 7, "127.0.0.1:50051",
        DialOpts.insecureDefault⟩] ∧
    (registerHttpProxyServer tcpHandle [okHandler 0] none none none 9000
        (Mux.mk 7)).state.httpProxyMux = none ∧
    (none : Option Mux) ≠ some (Mux.mk 7) := by
  refine ⟨rfl, rfl, by decide⟩

/-- Claim C3 (code bug, evaluated at the failing input): `New` with network
`TCP` is fatally rejected by `checkNetwork` as unsupported, because the
validation matches exactly against `["unix", "tcp"]`, even though the listen
call lowercases the name and shutdown compares it case-insensitively. -/
theorem C3_uppercase_network_rejected :
    new "TCP" "127.0.0.1" 50051 =
      NewOutcome.fatalBeforeListen (FatalError.unsupportedNetwork "TCP") := by
  decide

/-- Claim C4 (code bug, evaluated at the failing inputs): with a supported
transport and an empty address, or a supported transport and a negative port,
`New` passes validation and reaches the `net.Listen` call, because
`checkNetwork` tests the composed `fullAddress` (never empty) and no port
check exists. -/
theorem C4_invalid_config_reaches_listen :
    new "tcp" "" 8080 =
      NewOutcome.listens "tcp" ":8080"
        { serverPresent := true, network := "tcp", address := "", port := 8080,
          httpProxyMux := none, httpProxyPort := -1 } ∧
    new "tcp" "127.0.0.1" (-1) =
      NewOutcome.listens "tcp" "127.0.0.1:-1"
        { serverPresent := true, network := "tcp", address := "127.0.0.1",
          port := -1, httpProxyMux := none, httpProxyPort := -1 } := by
  refine ⟨by decide, by decide⟩

/-- Claim C9 (confirmed): `RegisterHttpProxyServer` with an empty (or nil)
handler list takes the fatal branch before any assignment: the handle state
is returned unchanged, no handler is invoked, and the outcome is fatal. -/
theorem C9_empty_handler_list_fatal (s : GrpcServer) (ctx : Option Ctx)
    (mux : Option Mux) (opts : Option DialOpts) (p : Int) (fm : Mux) :
    registerHttpProxyServer s [] ctx mux opts p fm =
      { state := s, calls := [], fatal := true } := rfl

/-- Claim C5 (confirmed): on a call with a non-empty handler list, passing the
sentinel `-1` as the proxy port stores the primary port plus one on the
handle, and passing any non-negative port stores that argument itself. -/
theorem C5_proxy_port_default (s : GrpcServer) (handlers : List Handler)
    (ctx : Option Ctx) (mux : Option Mux) (opts : Option DialOpts) (fm : Mux)
    (hne : handlers ≠ []) :
    (registerHttpProxyServer s handlers ctx mux opts (-1) fm).state.httpProxyPort
        = s.port + 1 ∧
    (∀ p : Int, 0 ≤ p →
      (registerHttpProxyServer s handlers ctx mux opts p fm).state.httpProxyPort
        = p) := by
  have hempty : handlers.isEmpty = false := by
    cases handlers with
    | nil => exact absurd rfl hne
    | cons a t => rfl
  constructor
  · simp [registerHttpProxyServer, hempty]
  · intro p hp
    have hpne : ¬(p = -1) := by omega
    simp [registerHttpProxyServer, hempty, hpne]

/-- Witness for C5 at a concrete input: primary port 50051, sentinel call
stores 50052, explicit call with 9000 stores 9000. -/
theorem C5_proxy_port_default_witness :
    (registerHttpProxyServer tcpHandle [okHandler 0] none none none (-1)
        (Mux.mk 0)).state.httpProxyPort = 50052 ∧
    (registerHttpProxyServer tcpHandle [okHandler 0] none none none 9000
        (Mux.mk 0)).state.httpProxyPort = 9000 := by
  have h := C5_proxy_port_default tcpHandle [okHandler 0] none none none
    (Mux.mk 0) (by simp)
  exact ⟨h.1.trans (by decide), h.2 9000 (by decide)⟩

/-- Claim C6 (confirmed): for a handle whose `Server` field is present, `Run`
starts the gateway goroutine exactly when a multiplexer is stored, the proxy
port differs from the primary port, and the proxy port is positive; in every
case the primary serve loop is still entered. -/
theorem C6_gateway_start_condition (s : GrpcServer)
    (hsp : s.serverPresent = true) :
    ((run s).gatewayTaskStarted = true ↔
      s.httpProxyMux ≠ none ∧ s.port ≠ s.httpProxyPort ∧ 0 < s.httpProxyPort) ∧
    (run s).primaryServeEntered = true := by
  constructor
  · simp [run, hsp, Option.isSome_iff_ne_none, and_assoc]
  · simp [run, hsp]

/-- Witness for C6 at a concrete state: mux stored, proxy port 50052 distinct
from primary 50051 and positive, so the gateway task starts and the primary
serve loop is entered. -/
theorem C6_gateway_start_condition_witness :
    (run { tcpHandle with
            httpProxyMux := some (Mux.mk 1),
            httpProxyPort := 50052 }).gatewayTaskStarted = true ∧
    (run { tcpHandle with
            httpProxyMux := some (Mux.mk 1),
            httpProxyPort := 50052 }).primaryServeEntered = true := by
  have h := C6_gateway_start_condition
    { tcpHandle with httpProxyMux := some (Mux.mk 1), httpProxyPort := 50052 }
    rfl
  exact ⟨h.1.mpr ⟨by decide, by decide, by decide⟩, h.2⟩

/-- Counterexample to claim C7 as stated: the empty string is outside the
supported set, yet `checkNetwork` reports the missing-configuration fatal
error, not the unsupported-transport one. -/
theorem C7_counterexample_empty_network :
    "" ∉ supportedNetworks ∧
    new "" "127.0.0.1" 50051 =
      NewOutcome.fatalBeforeListen FatalError.configNotSet ∧
    FatalError.configNotSet ≠ FatalError.unsupportedNetwork "" := by
  refine ⟨by decide, by decide, by decide⟩

/-- Helper: the composed full address is never the empty string, since it
always contains the colon separator. -/
theorem fullAddress_length_ne_zero (a : String) (p : Int) :
    ¬((fullAddress a p).length = 0) := by
  have h : (fullAddress a p).length
      = a.length + ":".length + (toString p).length := by
    simp [fullAddress, String.length_append]
  have h1 : ":".length = 1 := rfl
  omega

/-- Claim C7 (amended): every transport-kind string outside the supported set
makes `New` terminate fatally before `net.Listen` is reached; every such
string that is non-empty gets the unsupported-transport error from
`checkNetwork` (the empty string gets the missing-configuration error
instead). -/
theorem C7_unsupported_network_fatal (network address : String) (port : Int)
    (h : network ∉ supportedNetworks) :
    (∃ e, new network address port = NewOutcome.fatalBeforeListen e) ∧
    (network ≠ "" →
      new network address port =
        NewOutcome.fatalBeforeListen (FatalError.unsupportedNetwork network)) := by
  by_cases hn : network = ""
  · subst hn
    refine ⟨⟨FatalError.configNotSet, ?_⟩, fun hne => absurd rfl hne⟩
    simp [new, checkNetwork]
  · have hlen : ¬(network.length = 0) := by
      intro h0
      exact hn (String.ext (List.length_eq_zero.mp h0))
    have hrun : new network address port =
        NewOutcome.fatalBeforeListen (FatalError.unsupportedNetwork network) := by
      simp [new, checkNetwork, hlen, h, fullAddress_length_ne_zero address port]
    exact ⟨⟨_, hrun⟩, fun _ => hrun⟩

/-- Witness for C7 at the concrete network `ftp`, outside the supported set:
`New` reports the unsupported-transport fatal error before listening. -/
theorem C7_unsupported_network_fatal_witness :
    "ftp" ∉ supportedNetworks ∧
    new "ftp" "127.0.0.1" 50051 =
      NewOutcome.fatalBeforeListen (FatalError.unsupportedNetwork "ftp") :=
  ⟨by decide,
    (C7_unsupported_network_fatal "ftp" "127.0.0.1" 50051 (by decide)).2
      (by decide)⟩

/-- Helper: when every handler succeeds on the shared arguments, the loop
invokes the whole list in order, recording one call per handler, and is not
fatal. -/
theorem runHandlers_all_ok (hs : List Handler) (c : Ctx) (m : Mux)
    (e : String) (o : DialOpts) (hok : ∀ x ∈ hs, x.run c m e o = none) :
    runHandlers hs c m e o =
      (hs.map fun x => ⟨x.id, c, m, e, o⟩, false) := by
  induction hs with
  | nil => rfl
  | cons x t ih =>
      have hx : x.run c m e o = none := hok x (List.mem_cons_self x t)
      have ht := ih fun y hy => hok y (List.mem_cons_of_mem x hy)
      simp [runHandlers, hx, ht]

/-- Helper: when some handler fails on the shared arguments, the loop is
fatal. -/
theorem runHandlers_exists_err (hs : List Handler) (c : Ctx) (m : Mux)
    (e : String) (o : DialOpts) (herr : ∃ x ∈ hs, x.run c m e o ≠ none) :
    (runHandlers hs c m e o).2 = true := by
  induction hs with
  | nil => simp at herr
  | cons x t ih =>
      cases hx : x.run c m e o with
      | some msg => simp [runHandlers, hx]
      | none =>
          have ht : ∃ y ∈ t, y.run c m e o ≠ none := by
            rcases herr with ⟨y, hy, hne⟩
            rcases List.mem_cons.mp hy with rfl | hyt
            · exact absurd hx hne
            · exact ⟨y, hyt, hne⟩
          simp [runHandlers, hx, ih ht]

/-- Claim C8 (confirmed): on a non-empty handler list, if every handler
succeeds then each handler is invoked exactly once, in list order, with the
shared checked context, checked multiplexer, checked dial options, and the
primary address and port as the endpoint, without a fatal outcome; and if any
handler returns an error the outcome is fatal. -/
theorem C8_handlers_invoked_in_order (s : GrpcServer)
    (handlers : List Handler) (ctx : Option Ctx) (mux : Option Mux)
    (opts : Option DialOpts) (p : Int) (fm : Mux) (hne : handlers ≠ []) :
    ((∀ h ∈ handlers,
        h.run (ctx.getD Ctx.background) (mux.getD fm)
          (fullAddress s.address s.port) (opts.getD DialOpts.insecureDefault)
          = none) →
      (registerHttpProxyServer s handlers ctx mux opts p fm).calls =
        handlers.map (fun h =>
          ⟨h.id, ctx.getD Ctx.background, mux.getD fm,
            fullAddress s.address s.port,
            opts.getD DialOpts.insecureDefault⟩) ∧
      (registerHttpProxyServer s handlers ctx mux opts p fm).fatal = false) ∧
    ((∃ h ∈ handlers,
        h.run (ctx.getD Ctx.background) (mux.getD fm)
          (fullAddress s.address s.port) (opts.getD DialOpts.insecureDefault)
          ≠ none) →
      (registerHttpProxyServer s handlers ctx mux opts p fm).fatal = true) := by
  have hempty : handlers.isEmpty = false := by
    cases handlers with
    | nil => exact absurd rfl hne
    | cons a t => rfl
  constructor
  · intro hok
    have h1 := runHandlers_all_ok handlers (ctx.getD Ctx.background)
      (mux.getD fm) (fullAddress s.address s.port)
      (opts.getD DialOpts.insecureDefault) hok
    simp [registerHttpProxyServer, hempty, h1]
  · intro herr
    have h2 := runHandlers_exists_err handlers (ctx.getD Ctx.background)
      (mux.getD fm) (fullAddress s.address s.port)
      (opts.getD DialOpts.insecureDefault) herr
    simp [registerHttpProxyServer, hempty, h2]

/-- Witness for C8 at a concrete input: two succeeding handlers are invoked
in order, each with the default context, the fresh mux, endpoint
`127.0.0.1:50051` and default dial options, without a fatal outcome. -/
theorem C8_handlers_invoked_in_order_witness :
    (registerHttpProxyServer tcpHandle [okHandler 1, okHandler 2] none none
        none 9000 (Mux.mk 3)).calls =
      [⟨1, Ctx.background, Mux.mk 3, "127.0.0.1:50051",
          DialOpts.insecureDefault⟩,
        ⟨2, Ctx.background, Mux.mk 3, "127.0.0.1:50051",
          DialOpts.insecureDefault⟩] ∧
    (registerHttpProxyServer tcpHandle [okHandler 1, okHandler 2] none none
        none 9000 (Mux.mk 3)).fatal = false := by
  have h := (C8_handlers_invoked_in_order tcpHandle [okHandler 1, okHandler 2]
      none none none 9000 (Mux.mk 3) (by simp)).1
    (by simp [okHandler])
  exact ⟨h.1.trans (by decide), h.2⟩

/-- Claim C10 (confirmed): whenever `New` reaches the listen step and returns
a handle, that handle has no stored multiplexer and proxy port `-1`, and
therefore `Run` on it does not start the gateway task. -/
theorem C10_new_handle_has_no_gateway (network address : String) (port : Int)
    (ln la : String) (h : GrpcServer)
    (hnew : new network address port = NewOutcome.listens ln la h) :
    h.httpProxyMux = none ∧ h.httpProxyPort = -1 ∧
    (run h).gatewayTaskStarted = false := by
  unfold new at hnew
  split at hnew
  · exact absurd hnew (by simp)
  · cases hnew
    exact ⟨rfl, rfl, rfl⟩

/-- Witness for C10 at a concrete input: the handle built for
`tcp 127.0.0.1:50051` has no gateway configured and `Run` does not start the
gateway task. -/
theorem C10_new_handle_has_no_gateway_witness :
    tcpHandle.httpProxyMux = none ∧ tcpHandle.httpProxyPort = -1 ∧
    (run tcpHandle).gatewayTaskStarted = false :=
  C10_new_handle_has_no_gateway "tcp" "127.0.0.1" 50051 "tcp"
    "127.0.0.1:50051" tcpHandle (by decide)

end Server
